import Mathlib

/-!
Shallow embedding of the aggregation/reporting core of the Smartdairy farm
record-keeping application (src/app.py), together with theorems settling the
specification claims about it.

Modelling conventions:
* SQL `Integer` columns (salary amounts, expense amounts) become `ℤ`;
  nullable integer columns become `Option ℤ`.
* SQL `Float` milk readings become `ℚ` (exact arithmetic standing in for the
  program's floating point; every claim is about the algorithmic structure,
  and all constants involved, such as 0.7, are exactly representable as
  rationals).
* Calendar dates used only for range filtering and 7-day arithmetic
  (MilkRecord.date) are represented as an integer day index, on which
  "minus 7 days" is subtraction.  The month-rollover computation of the
  dashboard, which manipulates the (year, month, day) fields of a date
  directly, is modelled by a `CalDate` triple with the lexicographic order.
* A SQL query `filter(...)` + `func.sum` with `coalesce(..., 0)` over a table
  becomes a `List.filter` followed by a sum (the sum of an empty list is 0,
  matching the coalesce).  `func.avg` over a group becomes sum / length over
  the group's rows.  `group_by` + dictionary `.get(key)` becomes the same
  filtered computation keyed by the id, with `Option` for absent groups.
-/

namespace Smartdairy

/-! ## Data model (src/app.py, MODELS section) -/

/-- `Worker` row: the fields the aggregation core reads
(src/app.py, class Worker). -/
structure Worker where
  wid : ℤ
  name : String
  salary_per_month : Option ℤ
  status : String
deriving DecidableEq, Repr

/-- `SalaryPayment` row: the fields the aggregation core reads
(src/app.py, class SalaryPayment). -/
structure SalaryPayment where
  worker_id : ℤ
  month : String
  amount : ℤ
deriving DecidableEq, Repr

/-- Calendar date as the (year, month, day) triple, for the month-rollover
computation which manipulates these fields directly. -/
structure CalDate where
  year : ℤ
  month : ℤ
  day : ℤ
deriving DecidableEq, Repr

/-- Lexicographic (calendar) order on `CalDate`, the order SQL uses to
compare `db.Date` columns. -/
def CalDate.ble (a b : CalDate) : Bool :=
  a.year < b.year ∨
    (a.year = b.year ∧ (a.month < b.month ∨
      (a.month = b.month ∧ a.day ≤ b.day)))

/-- Strict lexicographic (calendar) order on `CalDate`. -/
def CalDate.blt (a b : CalDate) : Bool :=
  a.year < b.year ∨
    (a.year = b.year ∧ (a.month < b.month ∨
      (a.month = b.month ∧ a.day < b.day)))

/-- `Expense` row: the fields the aggregation core reads
(src/app.py, class Expense). -/
structure Expense where
  date : CalDate
  category : String
  amount : ℤ
deriving DecidableEq, Repr

/-- `MilkRecord` row: the fields the aggregation core reads
(src/app.py, class MilkRecord).  `date` is an integer day index. -/
structure MilkRecord where
  buffalo_id : ℤ
  date : ℤ
  morning_litres : Option ℚ
  evening_litres : Option ℚ
deriving DecidableEq, Repr

/-- `MilkRecord.total_litres` (src/app.py lines 158-163):
`m = self.morning_litres or 0; e = self.evening_litres or 0; m + e`.
Python `x or 0` yields 0 exactly when `x` is `None` or `0`, which agrees
with `Option.getD 0` on the result. -/
def MilkRecord.total_litres (r : MilkRecord) : ℚ :=
  r.morning_litres.getD 0 + r.evening_litres.getD 0

/-! ## Month rollover (src/app.py dashboard, lines 275-279 and 386-390)

The dashboard computes the current month's date range twice with identical
code (once for the expense total, once for the milk total):
`first_day = today.replace(day=1)` and then
`if first_day.month == 12: next_month_first = date(year+1, 1, 1)
 else: next_month_first = date(year, month+1, 1)`. -/

/-- `today.replace(day=1)`. -/
def firstDayOfMonth (today : CalDate) : CalDate :=
  { today with day := 1 }

/-- The December-rollover branch computing the exclusive upper bound of the
"this month" range from its first day. -/
def nextMonthFirst (first_day : CalDate) : CalDate :=
  if first_day.month = 12 then
    ⟨first_day.year + 1, 1, 1⟩
  else
    ⟨first_day.year, first_day.month + 1, 1⟩

/-! ## Salary aggregation -/

/-- Sum of `SalaryPayment.amount` over payments of worker `wid` in month
`monthKey`: the per-worker value produced by the
`group_by(worker_id)`/`func.sum` query plus `payments_by_worker.get(w.id, 0)`
(src/app.py lines 290-299 and 1037-1046). -/
def paidFor (payments : List SalaryPayment) (monthKey : String) (wid : ℤ) : ℤ :=
  ((payments.filter fun p => p.month = monthKey ∧ p.worker_id = wid).map
    SalaryPayment.amount).sum

/-- Sum of `SalaryPayment.amount` over all payments in month `monthKey`
(src/app.py lines 268-272, with `coalesce(..., 0)` giving 0 on no rows). -/
def monthSalaryTotal (payments : List SalaryPayment) (monthKey : String) : ℤ :=
  ((payments.filter fun p => p.month = monthKey).map SalaryPayment.amount).sum

/-- Sum of `Expense.amount` over expenses with `lo ≤ date < hi`
(src/app.py lines 281-285, with `coalesce(..., 0)` giving 0 on no rows). -/
def monthExpenseTotal (expenses : List Expense) (lo hi : CalDate) : ℤ :=
  ((expenses.filter fun e => lo.ble e.date ∧ e.date.blt hi).map
    Expense.amount).sum

/-- `month_total_cost = (month_salary_total or 0) + (month_expense_total or 0)`
for the current month (src/app.py lines 267-287); both totals are already
coalesced to 0, so the `or 0` is the identity. -/
def monthTotalCost (payments : List SalaryPayment) (expenses : List Expense)
    (monthKey : String) (today : CalDate) : ℤ :=
  monthSalaryTotal payments monthKey +
    monthExpenseTotal expenses (firstDayOfMonth today)
      (nextMonthFirst (firstDayOfMonth today))

/-! ## Dashboard salary-due list (src/app.py dashboard, lines 289-318) -/

/-- One entry of the dashboard `due_workers` list. -/
structure DueEntry where
  worker : Worker
  expected : ℤ
  paid : ℤ
  due : ℤ
deriving DecidableEq, Repr

/-- The body of the dashboard loop for one active worker
(src/app.py lines 302-316): `if not w.salary_per_month: continue` skips a
`None` or `0` salary; then `expected = w.salary_per_month or 0`,
`paid = payments_by_worker.get(w.id, 0) or 0`, `due = expected - paid`,
and the entry is emitted only `if due > 0`. -/
def dueEntryFor (payments : List SalaryPayment) (monthKey : String)
    (w : Worker) : Option DueEntry :=
  match w.salary_per_month with
  | none => none
  | some s =>
    if s = 0 then none
    else
      let expected := s
      let paid := paidFor payments monthKey w.wid
      let due := expected - paid
      if 0 < due then some ⟨w, expected, paid, due⟩ else none

/-- The dashboard `due_workers` list: the loop over
`Worker.query.filter_by(status="active")` (src/app.py lines 258-318). -/
def dueWorkers (workers : List Worker) (payments : List SalaryPayment)
    (monthKey : String) : List DueEntry :=
  (workers.filter fun w => w.status = "active").filterMap
    (dueEntryFor payments monthKey)

/-! ## Salary report (src/app.py salary_report, lines 1035-1090) -/

/-- The status classification of src/app.py lines 1058-1067, computed from
`w.salary_per_month` and `paid` (with `expected = w.salary_per_month or 0`
from line 1054). -/
def salaryStatus (spm : Option ℤ) (paid : ℤ) : String :=
  let expected := spm.getD 0
  if spm = none then "Salary not set"
  else if expected = 0 then "Salary set as 0"
  else if paid = 0 then "Not Paid"
  else if paid < expected then "Partially Paid"
  else "Paid"

/-- The five spec-side status cases, written from the spec's words
("Status classification, in order: no salary set; salary=0; paid=0;
0<paid<expected; paid≥expected"), with an explicit guard on the last case so
that exhaustiveness is a theorem, not an assumption. -/
def specSalaryStatus (spm : Option ℤ) (paid expected : ℤ) : String :=
  if spm = none then "Salary not set"
  else if expected = 0 then "Salary set as 0"
  else if paid = 0 then "Not Paid"
  else if 0 < paid ∧ paid < expected then "Partially Paid"
  else if expected ≤ paid then "Paid"
  else "UNREACHABLE"

/-- One row of the salary report (src/app.py lines 1069-1075). -/
structure ReportRow where
  worker : Worker
  expected : ℤ
  paid : ℤ
  due : ℤ
  status : String
deriving DecidableEq, Repr

/-- The body of the report loop for one active worker
(src/app.py lines 1053-1075): `expected = w.salary_per_month or 0`,
`paid = payments_by_worker.get(w.id, 0) or 0`, `due = max(expected - paid, 0)`,
and the five-way status. -/
def reportRowFor (payments : List SalaryPayment) (monthKey : String)
    (w : Worker) : ReportRow :=
  let expected := w.salary_per_month.getD 0
  let paid := paidFor payments monthKey w.wid
  let due := max (expected - paid) 0
  ⟨w, expected, paid, due, salaryStatus w.salary_per_month paid⟩

/-- The report rows: one per worker of
`Worker.query.filter_by(status="active")` (src/app.py lines 1035, 1048-1075).
The source additionally orders the rows by worker name for display; the
claims under proof (membership, per-row values, totals) are invariant under
that permutation, so the store's order is kept. -/
def salaryReportRows (workers : List Worker) (payments : List SalaryPayment)
    (monthKey : String) : List ReportRow :=
  (workers.filter fun w => w.status = "active").map
    (reportRowFor payments monthKey)

/-- The report's running totals (src/app.py lines 1049-1051 and 1077-1079):
`total_expected`, `total_paid`, `total_due` accumulated over the loop. -/
structure ReportTotals where
  total_expected : ℤ
  total_paid : ℤ
  total_due : ℤ
deriving DecidableEq, Repr

/-- The accumulation of the three report totals over the rows, exactly as the
loop does it (initialised to 0, incremented once per row). -/
def salaryReportTotals (workers : List Worker) (payments : List SalaryPayment)
    (monthKey : String) : ReportTotals :=
  (salaryReportRows workers payments monthKey).foldl
    (fun t r =>
      ⟨t.total_expected + r.expected, t.total_paid + r.paid,
        t.total_due + r.due⟩)
    ⟨0, 0, 0⟩

/-! ## Low-milk-yield anomaly detector (src/app.py dashboard, lines 322-361) -/

/-- The milk records of buffalo `bid` dated in
`[today - lookback_days, today)`: the filter of the `avg_rows` query restricted
to one group (src/app.py lines 326, 329-340 with `lookback_days = 7`,
`start_period = today - timedelta(days=7)`,
`MilkRecord.date >= start_period, MilkRecord.date < today`,
grouped by `buffalo_id`). -/
def priorWindow (records : List MilkRecord) (today : ℤ) (bid : ℤ) :
    List MilkRecord :=
  records.filter fun r =>
    r.buffalo_id = bid ∧ today - 7 ≤ r.date ∧ r.date < today

/-- `avg_by_buffalo.get(bid)` (src/app.py lines 341, 348): the SQL
`func.avg` of `coalesce(morning,0) + coalesce(evening,0)` over the group —
sum over the group's rows divided by their number — and `none` when the
group is empty (no row for `bid` in the window, hence no dictionary key). -/
def avgByBuffalo (records : List MilkRecord) (today : ℤ) (bid : ℤ) :
    Option ℚ :=
  let ws := priorWindow records today bid
  if ws.isEmpty then none
  else some (((ws.map MilkRecord.total_litres).sum : ℚ) / (ws.length : ℚ))

/-- One entry of the dashboard `low_milk_alerts` list
(src/app.py lines 355-359). -/
structure LowMilkAlert where
  buffalo_id : ℤ
  today_total : ℚ
  avg_total : ℚ
deriving DecidableEq, Repr

/-- The body of the alert loop for one record dated today
(src/app.py lines 347-359): skip when there is no average for the buffalo,
else compute `today_total` and emit the alert iff
`today_total < 0.7 * avg`. -/
def alertFor (records : List MilkRecord) (today : ℤ) (r : MilkRecord) :
    Option LowMilkAlert :=
  match avgByBuffalo records today r.buffalo_id with
  | none => none
  | some avg =>
    let today_total := r.morning_litres.getD 0 + r.evening_litres.getD 0
    if today_total < (7 / 10 : ℚ) * avg then
      some ⟨r.buffalo_id, today_total, avg⟩
    else none

/-- The dashboard `low_milk_alerts` list: the loop over
`MilkRecord.query.filter_by(date=today)` (src/app.py lines 344-359). -/
def lowMilkAlerts (records : List MilkRecord) (today : ℤ) :
    List LowMilkAlert :=
  (records.filter fun r => r.date = today).filterMap
    (alertFor records today)

/-! ## Per-animal milk summary (src/app.py buffalo_milk_summary, 601-629) -/

/-- The milk records of one buffalo:
`filter(MilkRecord.buffalo_id == buffalo_id)` (src/app.py line 620). -/
def buffaloRecords (records : List MilkRecord) (bid : ℤ) : List MilkRecord :=
  records.filter fun r => r.buffalo_id = bid

/-- The result of the summary aggregate query plus the guarded average
(src/app.py lines 607-628). -/
structure MilkSummary where
  first_date : Option ℤ
  last_date : Option ℤ
  total_litres : ℚ
  days_count : ℕ
  avg_per_day : ℚ
deriving DecidableEq, Repr

/-- `buffalo_milk_summary`'s aggregate computation (src/app.py lines 607-628):
SQL `min(date)` / `max(date)` (NULL on no rows), coalesced sum of
`coalesce(morning,0) + coalesce(evening,0)`, `count(distinct date)`, and
`avg_per_day = total / days_count if days_count > 0 else 0`. -/
def milkSummary (records : List MilkRecord) (bid : ℤ) : MilkSummary :=
  let rs := buffaloRecords records bid
  let total := (rs.map MilkRecord.total_litres).sum
  let days := (rs.map MilkRecord.date).dedup.length
  let avg : ℚ := if 0 < days then total / (days : ℚ) else 0
  ⟨(rs.map MilkRecord.date).min?, (rs.map MilkRecord.date).max?,
    total, days, avg⟩

/-! ## Registration role assignment (src/app.py register, lines 1652-1703) -/

/-- A registered user as the role-assignment logic sees it. -/
structure RUser where
  username : String
  role : String
deriving DecidableEq, Repr

/-- A successful registration (src/app.py lines 1689-1701):
`is_first_user = User.query.count() == 0`,
`role = "admin" if is_first_user else "user"`, then the new user row is
inserted.  `users` is the table contents at registration time. -/
def registerUser (users : List RUser) (username : String) : List RUser :=
  let role := if users.length = 0 then "admin" else "user"
  users ++ [⟨username, role⟩]

/-- Registering a sequence of users one after another into an initially
empty table. -/
def registerAll (usernames : List String) : List RUser :=
  usernames.foldl registerUser []

/-! ## Theorems settling the claims -/

/-- C7: For every MilkRecord, the total litres equals
morning_litres + evening_litres with an absent (null) reading treated as 0:
a record with morning = None and evening = 5.0 has total 5.0, and a record
with both None has total 0.  The four constructor cases on the two optional
readings cover every record. -/
theorem total_litres_null_as_zero (bid d : ℤ) (m e : ℚ) :
    MilkRecord.total_litres ⟨bid, d, none, some e⟩ = e ∧
    MilkRecord.total_litres ⟨bid, d, none, none⟩ = 0 ∧
    MilkRecord.total_litres ⟨bid, d, some m, none⟩ = m ∧
    MilkRecord.total_litres ⟨bid, d, some m, some e⟩ = m + e ∧
    MilkRecord.total_litres ⟨bid, d, none, some (5 : ℚ)⟩ = 5 := by
  simp [MilkRecord.total_litres]

/-- C6: the "this month" range computation handles December rollover: in
December of year Y the range is [Y-12-01, (Y+1)-01-01) — the exclusive upper
bound is January 1 of the next year — and in any other month the upper bound
is the first day of the next month of the same year.  The same
`firstDayOfMonth`/`nextMonthFirst` computation is the one the dashboard runs
for both the month expense total and the month milk total. -/
theorem month_rollover (today : CalDate) :
    (today.month = 12 →
      firstDayOfMonth today = ⟨today.year, 12, 1⟩ ∧
      nextMonthFirst (firstDayOfMonth today) = ⟨today.year + 1, 1, 1⟩) ∧
    (today.month ≠ 12 →
      firstDayOfMonth today = ⟨today.year, today.month, 1⟩ ∧
      nextMonthFirst (firstDayOfMonth today) = ⟨today.year, today.month + 1, 1⟩) := by
  constructor <;> intro h <;>
    simp [firstDayOfMonth, nextMonthFirst, h]

/-- Witness for C6 at today = 2025-12-15: the month range spans
[2025-12-01, 2026-01-01). -/
theorem month_rollover_witness :
    firstDayOfMonth ⟨2025, 12, 15⟩ = ⟨2025, 12, 1⟩ ∧
    nextMonthFirst (firstDayOfMonth ⟨2025, 12, 15⟩) = ⟨2026, 1, 1⟩ := by
  have h := (month_rollover ⟨2025, 12, 15⟩).1 rfl
  exact ⟨h.1, by rw [h.2]; norm_num⟩

/-- C9: a successful registration assigns role "admin" exactly when the
users table is empty at registration time, and in a sequence of
registrations starting from an empty table the first user is "admin" and
every later one is "user". -/
theorem register_first_admin :
    (∀ users username,
      registerUser users username =
        users ++ [⟨username, if users = [] then "admin" else "user"⟩]) ∧
    (∀ username usernames,
      registerAll (username :: usernames) =
        ⟨username, "admin"⟩ ::
          usernames.map fun u => (⟨u, "user"⟩ : RUser)) := by
  have hstep : ∀ users username,
      registerUser users username =
        users ++ [⟨username, if users = [] then "admin" else "user"⟩] := by
    intro users username
    simp [registerUser, List.length_eq_zero]
  refine ⟨hstep, ?_⟩
  have hrest : ∀ (usernames : List String) (acc : List RUser), acc ≠ [] →
      usernames.foldl registerUser acc =
        acc ++ usernames.map fun u => (⟨u, "user"⟩ : RUser) := by
    intro usernames
    induction usernames with
    | nil => intro acc _; simp
    | cons u us ih =>
      intro acc hacc
      have hone : registerUser acc u = acc ++ [(⟨u, "user"⟩ : RUser)] := by
        rw [hstep]; simp [hacc]
      simp only [List.foldl_cons, hone]
      rw [ih (acc ++ [(⟨u, "user"⟩ : RUser)]) (by simp)]
      simp
  intro username usernames
  show (username :: usernames).foldl registerUser [] = _
  simp only [List.foldl_cons]
  have h0 : registerUser [] username = [⟨username, "admin"⟩] := by
    rw [hstep]; simp
  rw [h0, hrest usernames [⟨username, "admin"⟩] (by simp)]
  simp

/-- C2: the report status is a total function of
(salary_per_month, paid, expected) — with expected = salary_per_month or 0 —
agreeing with the spec's five cases evaluated in order (null; expected = 0;
paid = 0; 0 < paid < expected; paid ≥ expected), the five ordered cases are
exhaustive, and the result is always exactly one of the five status strings.
The hypothesis 0 ≤ paid reflects the data-model invariant amount ≥ 0 on
SalaryPayment rows, of which paid is a sum. -/
theorem salary_status_five_cases (spm : Option ℤ) (paid : ℤ)
    (hp : 0 ≤ paid) :
    salaryStatus spm paid = specSalaryStatus spm paid (spm.getD 0) ∧
    specSalaryStatus spm paid (spm.getD 0) ≠ "UNREACHABLE" ∧
    (salaryStatus spm paid = "Salary not set" ∨
      salaryStatus spm paid = "Salary set as 0" ∨
      salaryStatus spm paid = "Not Paid" ∨
      salaryStatus spm paid = "Partially Paid" ∨
      salaryStatus spm paid = "Paid") := by
  rcases spm with _ | s <;>
    simp only [salaryStatus, specSalaryStatus, Option.getD_some,
      Option.getD_none] <;>
    split_ifs <;> simp_all <;> omega

/-- Witness for C2 at salary 5000, paid 2000: both classifications say
"Partially Paid", the five cases are exhaustive there, and the status is one
of the five strings. -/
theorem salary_status_five_cases_witness :
    salaryStatus (some 5000) 2000 =
      specSalaryStatus (some 5000) 2000 ((some (5000 : ℤ)).getD 0) ∧
    specSalaryStatus (some 5000) 2000 ((some (5000 : ℤ)).getD 0) ≠
      "UNREACHABLE" ∧
    (salaryStatus (some 5000) 2000 = "Salary not set" ∨
      salaryStatus (some 5000) 2000 = "Salary set as 0" ∨
      salaryStatus (some 5000) 2000 = "Not Paid" ∨
      salaryStatus (some 5000) 2000 = "Partially Paid" ∨
      salaryStatus (some 5000) 2000 = "Paid") :=
  salary_status_five_cases (some 5000) 2000 (by norm_num)

/-- C5: for the current month, month_total_cost is exactly the sum of the
month salary total and the month expense total, and each term is 0 when it
has no matching rows (the salary term when no payment carries the month key;
the expense term when no expense date falls in the month range). -/
theorem month_total_cost_decomposes (payments : List SalaryPayment)
    (expenses : List Expense) (monthKey : String) (today : CalDate) :
    monthTotalCost payments expenses monthKey today =
      monthSalaryTotal payments monthKey +
        monthExpenseTotal expenses (firstDayOfMonth today)
          (nextMonthFirst (firstDayOfMonth today)) ∧
    ((∀ p ∈ payments, p.month ≠ monthKey) →
      monthSalaryTotal payments monthKey = 0) ∧
    ((∀ e ∈ expenses,
        ¬((firstDayOfMonth today).ble e.date = true ∧
          e.date.blt (nextMonthFirst (firstDayOfMonth today)) = true)) →
      monthExpenseTotal expenses (firstDayOfMonth today)
        (nextMonthFirst (firstDayOfMonth today)) = 0) := by
  refine ⟨rfl, ?_, ?_⟩
  · intro h
    have hnil : payments.filter (fun p => p.month = monthKey) = [] := by
      rw [List.filter_eq_nil_iff]
      intro p hp
      simpa using h p hp
    simp [monthSalaryTotal, hnil]
  · intro h
    have hnil : expenses.filter
        (fun e => (firstDayOfMonth today).ble e.date &&
          e.date.blt (nextMonthFirst (firstDayOfMonth today))) = [] := by
      rw [List.filter_eq_nil_iff]
      intro e he
      simpa using h e he
    simp [monthExpenseTotal, hnil]

/-- Witness for C5 on an empty store at today = 2025-06-10: the total is
0 + 0 and both zero-row cases fire. -/
theorem month_total_cost_decomposes_witness :
    monthTotalCost [] [] "2025-06" ⟨2025, 6, 10⟩ =
      monthSalaryTotal [] "2025-06" +
        monthExpenseTotal [] (firstDayOfMonth ⟨2025, 6, 10⟩)
          (nextMonthFirst (firstDayOfMonth ⟨2025, 6, 10⟩)) ∧
    monthSalaryTotal [] "2025-06" = 0 ∧
    monthExpenseTotal [] (firstDayOfMonth ⟨2025, 6, 10⟩)
      (nextMonthFirst (firstDayOfMonth ⟨2025, 6, 10⟩)) = 0 := by
  have h := month_total_cost_decomposes [] [] "2025-06" ⟨2025, 6, 10⟩
  exact ⟨h.1, h.2.1 (by simp), h.2.2 (by simp)⟩

/-- The report totals loop computes componentwise sums over the rows, for
any starting accumulator. -/
lemma foldl_report_totals (rows : List ReportRow) (t : ReportTotals) :
    rows.foldl
      (fun t r =>
        ⟨t.total_expected + r.expected, t.total_paid + r.paid,
          t.total_due + r.due⟩) t =
      ⟨t.total_expected + (rows.map ReportRow.expected).sum,
        t.total_paid + (rows.map ReportRow.paid).sum,
        t.total_due + (rows.map ReportRow.due).sum⟩ := by
  induction rows generalizing t with
  | nil => simp
  | cons r rs ih => simp [ih, add_assoc]

/-- C3: every active worker is included in the salary report (in particular
a worker with no salary configured gets a row with status "Salary not set"
and expected 0), each row's due is floored at 0, and the report totals are
the sums of expected, paid and floored due over all the rows. -/
theorem salary_report_complete (workers : List Worker)
    (payments : List SalaryPayment) (monthKey : String) :
    (∀ w ∈ workers, w.status = "active" →
      reportRowFor payments monthKey w ∈
        salaryReportRows workers payments monthKey) ∧
    (∀ w : Worker, w.salary_per_month = none →
      (reportRowFor payments monthKey w).status = "Salary not set" ∧
      (reportRowFor payments monthKey w).expected = 0) ∧
    (∀ r ∈ salaryReportRows workers payments monthKey,
      r.due = max (r.expected - r.paid) 0) ∧
    salaryReportTotals workers payments monthKey =
      ⟨((salaryReportRows workers payments monthKey).map
          ReportRow.expected).sum,
        ((salaryReportRows workers payments monthKey).map
          ReportRow.paid).sum,
        ((salaryReportRows workers payments monthKey).map
          ReportRow.due).sum⟩ := by
  refine ⟨?_, ?_, ?_, ?_⟩
  · intro w hw hact
    exact List.mem_map_of_mem _ (List.mem_filter.mpr ⟨hw, by simp [hact]⟩)
  · intro w hnone
    simp [reportRowFor, salaryStatus, hnone]
  · intro r hr
    rcases List.mem_map.mp hr with ⟨w, _, rfl⟩
    rfl
  · rw [salaryReportTotals, foldl_report_totals]
    simp

/-- Witness for C3 on one active worker with salary 100, of which 40 is
paid in the month: their row is in the report. -/
theorem salary_report_complete_witness :
    reportRowFor [⟨1, "2025-06", 40⟩] "2025-06" ⟨1, "A", some 100, "active"⟩ ∈
      salaryReportRows [⟨1, "A", some 100, "active"⟩] [⟨1, "2025-06", 40⟩]
        "2025-06" :=
  (salary_report_complete [⟨1, "A", some 100, "active"⟩] [⟨1, "2025-06", 40⟩]
      "2025-06").1
    ⟨1, "A", some 100, "active"⟩ (by simp) rfl

/-- Characterisation of the dashboard loop body: it emits an entry exactly
for a non-null, non-zero salary with positive (unfloored) due, and the entry
carries the worker and the exact expected/paid/due values. -/
lemma dueEntryFor_eq_some (payments : List SalaryPayment) (monthKey : String)
    (w : Worker) (e : DueEntry) :
    dueEntryFor payments monthKey w = some e ↔
    ∃ s, w.salary_per_month = some s ∧ s ≠ 0 ∧
      0 < s - paidFor payments monthKey w.wid ∧
      e = ⟨w, s, paidFor payments monthKey w.wid,
        s - paidFor payments monthKey w.wid⟩ := by
  rcases hspm : w.salary_per_month with _ | s
  · simp [dueEntryFor, hspm]
  · simp only [dueEntryFor, hspm, Option.some.injEq]
    split_ifs with h0 hdue
    · simp [h0]
    · constructor
      · intro h
        injection h with h
        subst h
        exact ⟨s, rfl, h0, hdue, rfl⟩
      · rintro ⟨s', rfl, -, -, rfl⟩
        rfl
    · constructor
      · intro h
        exact absurd h (by simp)
      · rintro ⟨s', rfl, -, hd, rfl⟩
        exact absurd hd hdue

/-- C1: for an active worker with salary_per_month = some s, s ≠ 0, the
dashboard due entry ⟨w, s, paid, s − paid⟩ is in the due list iff
0 < s − paid (the due value unfloored); and every due-list entry for a
worker w certifies that w's salary is non-null and non-zero, with
expected, paid and due exactly as the claim computes them and due > 0 —
hence a worker with salary null or zero never appears. -/
theorem dashboard_due_list_correct (workers : List Worker)
    (payments : List SalaryPayment) (monthKey : String) (w : Worker)
    (hw : w ∈ workers) (hact : w.status = "active") :
    (∀ s : ℤ, w.salary_per_month = some s → s ≠ 0 →
      (((⟨w, s, paidFor payments monthKey w.wid,
            s - paidFor payments monthKey w.wid⟩ : DueEntry) ∈
          dueWorkers workers payments monthKey) ↔
        0 < s - paidFor payments monthKey w.wid)) ∧
    (∀ e ∈ dueWorkers workers payments monthKey, e.worker = w →
      ∃ s, w.salary_per_month = some s ∧ s ≠ 0 ∧
        e.expected = s ∧ e.paid = paidFor payments monthKey w.wid ∧
        e.due = s - paidFor payments monthKey w.wid ∧ 0 < e.due) := by
  constructor
  · intro s hs hs0
    constructor
    · intro hmem
      rcases List.mem_filterMap.mp hmem with ⟨w', _, hsome⟩
      rcases (dueEntryFor_eq_some payments monthKey w' _).mp hsome with
        ⟨s', hs', hs'0, hdue, heq⟩
      obtain ⟨rfl, rfl, -, -⟩ :
          w = w' ∧ s = s' ∧ paidFor payments monthKey w.wid =
            paidFor payments monthKey w'.wid ∧
            s - paidFor payments monthKey w.wid =
              s' - paidFor payments monthKey w'.wid := by
        simpa [DueEntry.mk.injEq] using heq
      exact hdue
    · intro hdue
      exact List.mem_filterMap.mpr
        ⟨w, List.mem_filter.mpr ⟨hw, by simp [hact]⟩,
          (dueEntryFor_eq_some payments monthKey w _).mpr
            ⟨s, hs, hs0, hdue, rfl⟩⟩
  · intro e he hew
    rcases List.mem_filterMap.mp he with ⟨w', _, hsome⟩
    rcases (dueEntryFor_eq_some payments monthKey w' e).mp hsome with
      ⟨s, hs, hs0, hdue, rfl⟩
    obtain rfl : w' = w := hew
    exact ⟨s, hs, hs0, rfl, rfl, rfl, hdue⟩

/-- Witness for C1: one active worker with salary 100 and no payments is in
the due list with due 100 > 0. -/
theorem dashboard_due_list_correct_witness :
    ((⟨⟨1, "A", some 100, "active"⟩, 100, paidFor [] "2025-06" 1,
        100 - paidFor [] "2025-06" 1⟩ : DueEntry) ∈
      dueWorkers [⟨1, "A", some 100, "active"⟩] [] "2025-06") ∧
    (0 : ℤ) < 100 - paidFor [] "2025-06" 1 := by
  have h := (dashboard_due_list_correct [⟨1, "A", some 100, "active"⟩] []
      "2025-06" ⟨1, "A", some 100, "active"⟩ (by simp) rfl).1 100 rfl
      (by decide)
  have hdue : (0 : ℤ) < 100 - paidFor [] "2025-06" 1 := by
    simp [paidFor]
  exact ⟨h.mpr hdue, hdue⟩

/-- A buffalo has no 7-day average exactly when its prior window is empty. -/
lemma avgByBuffalo_eq_none_iff (records : List MilkRecord) (today bid : ℤ) :
    avgByBuffalo records today bid = none ↔
      priorWindow records today bid = [] := by
  rw [avgByBuffalo]
  split_ifs with h
  · simpa [List.isEmpty_iff] using h
  · simpa [List.isEmpty_iff] using h

/-- On a non-empty prior window the 7-day average is the sum of the window's
totals divided by the number of window records. -/
lemma avgByBuffalo_of_window (records : List MilkRecord) (today bid : ℤ)
    (ws : List MilkRecord) (hw : priorWindow records today bid = ws)
    (hne : ws ≠ []) :
    avgByBuffalo records today bid =
      some (((ws.map MilkRecord.total_litres).sum : ℚ) / (ws.length : ℚ)) := by
  rw [avgByBuffalo]
  simp [hw, hne, List.isEmpty_iff]

/-- Characterisation of the alert loop body: it emits an alert exactly when
the buffalo has an average and today's total is strictly below 0.7 of it,
and the alert carries the buffalo id, today's total, and the average. -/
lemma alertFor_eq_some (records : List MilkRecord) (today : ℤ)
    (r : MilkRecord) (a : LowMilkAlert) :
    alertFor records today r = some a ↔
    ∃ avg, avgByBuffalo records today r.buffalo_id = some avg ∧
      r.total_litres < (7 / 10 : ℚ) * avg ∧
      a = ⟨r.buffalo_id, r.total_litres, avg⟩ := by
  rcases havg : avgByBuffalo records today r.buffalo_id with _ | avg
  · simp [alertFor, havg]
  · simp only [alertFor, havg, Option.some.injEq]
    split_ifs with hc
    · constructor
      · intro h
        injection h with h
        subst h
        exact ⟨avg, rfl, hc, rfl⟩
      · rintro ⟨avg', rfl, -, rfl⟩
        rfl
    · constructor
      · intro h
        exact absurd h (by simp)
      · rintro ⟨avg', rfl, hlt, rfl⟩
        exact absurd hlt hc

/-- C4: the low-yield detector considers only animals with a record dated
today; for a today-record r of an animal with an empty prior 7-day window
([today − 7, today)) no alert for that animal exists; and for a non-empty
window ws the alert ⟨animal, today total, mean of ws⟩ is flagged iff
today's total < 0.7 × mean — in particular a total exactly equal to
0.7 × mean is not flagged. -/
theorem low_milk_detector_correct (records : List MilkRecord) (today : ℤ) :
    (∀ a ∈ lowMilkAlerts records today,
      ∃ r ∈ records, r.date = today ∧ r.buffalo_id = a.buffalo_id) ∧
    (∀ r ∈ records, r.date = today →
      (priorWindow records today r.buffalo_id = [] →
        ∀ a ∈ lowMilkAlerts records today, a.buffalo_id ≠ r.buffalo_id) ∧
      (∀ ws, priorWindow records today r.buffalo_id = ws → ws ≠ [] →
        (((⟨r.buffalo_id, r.total_litres,
              ((ws.map MilkRecord.total_litres).sum : ℚ) /
                (ws.length : ℚ)⟩ : LowMilkAlert) ∈
            lowMilkAlerts records today) ↔
          r.total_litres <
            (7 / 10 : ℚ) *
              (((ws.map MilkRecord.total_litres).sum : ℚ) /
                (ws.length : ℚ))))) := by
  constructor
  · intro a ha
    rcases List.mem_filterMap.mp ha with ⟨r', hr', hsome⟩
    rcases List.mem_filter.mp hr' with ⟨hr'mem, hr'date⟩
    rcases (alertFor_eq_some records today r' a).mp hsome with
      ⟨avg, -, -, rfl⟩
    exact ⟨r', hr'mem, by simpa using hr'date, rfl⟩
  · intro r hr hdate
    constructor
    · intro hwin a ha hbid
      rcases List.mem_filterMap.mp ha with ⟨r', -, hsome⟩
      rcases (alertFor_eq_some records today r' a).mp hsome with
        ⟨avg, havg, -, rfl⟩
      have : avgByBuffalo records today r.buffalo_id = none :=
        (avgByBuffalo_eq_none_iff records today r.buffalo_id).mpr hwin
      rw [← hbid] at this
      rw [this] at havg
      exact Option.noConfusion havg
    · intro ws hws hne
      have havg := avgByBuffalo_of_window records today r.buffalo_id ws hws hne
      constructor
      · intro hmem
        rcases List.mem_filterMap.mp hmem with ⟨r', -, hsome⟩
        rcases (alertFor_eq_some records today r' _).mp hsome with
          ⟨avg', havg', hlt', heq⟩
        obtain ⟨hb, ht, hv⟩ :
            r.buffalo_id = r'.buffalo_id ∧
            r.total_litres = r'.total_litres ∧
            ((ws.map MilkRecord.total_litres).sum : ℚ) / (ws.length : ℚ) =
              avg' := by
          simpa [LowMilkAlert.mk.injEq] using heq
        rw [ht, hv]
        exact hlt'
      · intro hlt
        exact List.mem_filterMap.mpr
          ⟨r, List.mem_filter.mpr ⟨hr, by simp [hdate]⟩,
            (alertFor_eq_some records today r _).mpr
              ⟨_, havg, hlt, rfl⟩⟩

/-- Witness for C4: buffalo 1 has one prior record totalling 10 in the
window before today = day 10, and today's total 6 < 0.7 × 10, so the alert
is in the list. -/
theorem low_milk_detector_correct_witness :
    (⟨1, MilkRecord.total_litres ⟨1, 10, some 6, none⟩,
        ((([⟨1, 3, some 10, none⟩] : List MilkRecord).map
            MilkRecord.total_litres).sum : ℚ) /
          ((([⟨1, 3, some 10, none⟩] : List MilkRecord).length : ℕ) : ℚ)⟩ :
      LowMilkAlert) ∈
      lowMilkAlerts [⟨1, 10, some 6, none⟩, ⟨1, 3, some 10, none⟩] 10 := by
  have h := ((low_milk_detector_correct
      [⟨1, 10, some 6, none⟩, ⟨1, 3, some 10, none⟩] 10).2
      ⟨1, 10, some 6, none⟩ (by simp) rfl).2
      [⟨1, 3, some 10, none⟩] (by decide) (by simp)
  exact h.mpr (by norm_num [MilkRecord.total_litres])

/-- C10: the 7-day average divides by the number of records present in the
window, not by 7: on a non-empty window ws it equals (Σ totals) / |ws|, and
when the window holds exactly one record of total T the average is T. -/
theorem low_milk_average_denominator (records : List MilkRecord)
    (today bid : ℤ) (ws : List MilkRecord)
    (hw : priorWindow records today bid = ws) (hne : ws ≠ []) :
    avgByBuffalo records today bid =
      some (((ws.map MilkRecord.total_litres).sum : ℚ) / (ws.length : ℚ)) ∧
    (∀ r0, ws = [r0] →
      avgByBuffalo records today bid = some r0.total_litres) := by
  refine ⟨avgByBuffalo_of_window records today bid ws hw hne, ?_⟩
  rintro r0 rfl
  rw [avgByBuffalo_of_window records today bid [r0] hw (by simp)]
  simp

/-- Witness for C10: buffalo 2's only window record totals 9, so its 7-day
average is 9, not 9/7. -/
theorem low_milk_average_denominator_witness :
    avgByBuffalo [⟨2, 4, some 8, some 1⟩] 10 2 =
      some (MilkRecord.total_litres ⟨2, 4, some 8, some 1⟩) :=
  (low_milk_average_denominator [⟨2, 4, some 8, some 1⟩] 10 2
      [⟨2, 4, some 8, some 1⟩] (by decide) (by simp)).2
    ⟨2, 4, some 8, some 1⟩ rfl

/-- C8: the per-animal summary returns the minimum and maximum record dates,
the total over all the animal's records, the count of distinct record dates,
and total/count as the average; with zero records it is
count = 0, total = 0, average = 0 and null first/last date — the division
is guarded by the count and never happens at 0. -/
theorem milk_summary_safe (records : List MilkRecord) (bid : ℤ) :
    (buffaloRecords records bid = [] →
      milkSummary records bid = ⟨none, none, 0, 0, 0⟩) ∧
    ((milkSummary records bid).days_count = 0 →
      (milkSummary records bid).avg_per_day = 0) ∧
    (0 < (milkSummary records bid).days_count →
      (milkSummary records bid).avg_per_day =
        (milkSummary records bid).total_litres /
          ((milkSummary records bid).days_count : ℚ)) ∧
    (milkSummary records bid).days_count =
      ((buffaloRecords records bid).map MilkRecord.date).toFinset.card ∧
    (∀ d, (milkSummary records bid).first_date = some d →
      d ∈ (buffaloRecords records bid).map MilkRecord.date ∧
      ∀ d' ∈ (buffaloRecords records bid).map MilkRecord.date, d ≤ d') ∧
    (∀ d, (milkSummary records bid).last_date = some d →
      d ∈ (buffaloRecords records bid).map MilkRecord.date ∧
      ∀ d' ∈ (buffaloRecords records bid).map MilkRecord.date, d' ≤ d) ∧
    (milkSummary records bid).total_litres =
      ((buffaloRecords records bid).map MilkRecord.total_litres).sum := by
  have hanti : Std.Antisymm ((· : ℤ) ≤ ·) :=
    ⟨fun h h' => le_antisymm h h'⟩
  refine ⟨?_, ?_, ?_, ?_, ?_, ?_, ?_⟩
  · intro h
    simp [milkSummary, h]
  · intro h
    simp only [milkSummary] at h ⊢
    rw [if_neg]
    omega
  · intro h
    simp only [milkSummary] at h ⊢
    rw [if_pos h]
  · simp only [milkSummary]
    exact (List.card_toFinset _).symm
  · intro d hd
    simp only [milkSummary] at hd
    exact (List.min?_eq_some_iff le_refl min_choice
      (fun _ _ _ => le_min_iff)).mp hd
  · intro d hd
    simp only [milkSummary] at hd
    have h := (List.max?_eq_some_iff le_refl max_choice
      (fun _ _ _ => max_le_iff)).mp hd
    exact ⟨h.1, fun d' hd' => h.2 d' hd'⟩
  · rfl

/-- Witness for C8: an animal with zero milk records gets
count 0, total 0, average 0 and null first/last dates. -/
theorem milk_summary_safe_witness :
    milkSummary [] 1 = ⟨none, none, 0, 0, 0⟩ :=
  (milk_summary_safe [] 1).1 rfl

end Smartdairy
